import Mathlib

/-!
# Piano-MIDI: the command table of `machine_instructions.h`

The header declares an enumeration `CommandType`, a record `Command`, the
constant array `commands` and the derived constant `numCommands`.  This file
embeds those declarations and proves properties of the table: its size, its
first and last entries, the ranges of its fields, and the consistency of the
press / unpress / move sequence it encodes.
-/

namespace PianoMidi

/-! ## Data model -/

/-- The enumeration `CommandType`, constructors in declaration order. -/
inductive CommandType where
  | CMD_WAIT
  | CMD_MOVE_HAND
  | CMD_PRESS_FINGER
  | CMD_UNPRESS_FINGER
deriving DecidableEq, Repr

open CommandType

/-- The record `Command`: a tag and two `int` fields.  `which_hand` is 0 for
left and 1 for right (ignored for `CMD_WAIT`); `param` is a key number, a
finger number or a wait duration. -/
structure Command where
  type : CommandType
  which_hand : Int
  param : Int
deriving DecidableEq, Repr

/-- The array `commands`, entry by entry in source order. -/
def commands : List Command :=
  [ ⟨CMD_MOVE_HAND, 1, 1⟩,
    ⟨CMD_PRESS_FINGER, 1, 1⟩,
    ⟨CMD_WAIT, -1, 200⟩,
    ⟨CMD_UNPRESS_FINGER, 1, 1⟩,
    ⟨CMD_PRESS_FINGER, 1, 2⟩,
    ⟨CMD_WAIT, -1, 200⟩,
    ⟨CMD_MOVE_HAND, 0, 8⟩,
    ⟨CMD_PRESS_FINGER, 0, 1⟩,
    ⟨CMD_UNPRESS_FINGER, 1, 2⟩,
    ⟨CMD_PRESS_FINGER, 1, 3⟩,
    ⟨CMD_WAIT, -1, 200⟩,
    ⟨CMD_UNPRESS_FINGER, 0, 1⟩,
    ⟨CMD_PRESS_FINGER, 0, 2⟩,
    ⟨CMD_UNPRESS_FINGER, 1, 3⟩,
    ⟨CMD_PRESS_FINGER, 1, 4⟩,
    ⟨CMD_WAIT, -1, 200⟩,
    ⟨CMD_UNPRESS_FINGER, 0, 2⟩,
    ⟨CMD_PRESS_FINGER, 0, 3⟩,
    ⟨CMD_WAIT, -1, 200⟩,
    ⟨CMD_UNPRESS_FINGER, 0, 3⟩,
    ⟨CMD_PRESS_FINGER, 0, 4⟩,
    ⟨CMD_UNPRESS_FINGER, 1, 4⟩,
    ⟨CMD_WAIT, -1, 400⟩,
    ⟨CMD_UNPRESS_FINGER, 0, 4⟩,
    ⟨CMD_PRESS_FINGER, 0, 5⟩,
    ⟨CMD_WAIT, -1, 200⟩,
    ⟨CMD_UNPRESS_FINGER, 0, 5⟩,
    ⟨CMD_MOVE_HAND, 0, 13⟩,
    ⟨CMD_PRESS_FINGER, 0, 1⟩,
    ⟨CMD_WAIT, -1, 200⟩,
    ⟨CMD_UNPRESS_FINGER, 0, 1⟩,
    ⟨CMD_PRESS_FINGER, 0, 2⟩,
    ⟨CMD_WAIT, -1, 200⟩,
    ⟨CMD_UNPRESS_FINGER, 0, 2⟩ ]

/-! ## `sizeof` and the derived count -/

/-- Size in bytes of one `Command` record on the usual ABI: a 4-byte
enumeration followed by two 4-byte `int`s, no padding.  The count below does
not depend on this value, only on its being positive. -/
def sizeofCommand : Nat := 4 + 4 + 4

/-- The value of `sizeof` on an array of `Command`: the number of elements
times the size `sz` of one element. -/
def sizeofArray (sz : Nat) (xs : List Command) : Nat := xs.length * sz

/-- Conversion of an unsigned value to a 32-bit `int`, wrapping modulo `2^32`. -/
def toInt32 (n : Nat) : Int := ((n + 2 ^ 31) % 2 ^ 32 : Nat) - 2 ^ 31

/-- The initialiser `sizeof(xs) / sizeof(xs[0])` stored into an `int`, for a
table `xs` whose records have size `sz`. -/
def countOf (sz : Nat) (xs : List Command) : Int :=
  toInt32 (sizeofArray sz xs / sz)

/-- The constant `numCommands = sizeof(commands) / sizeof(commands[0])`. -/
def numCommands : Int := countOf sizeofCommand commands

/-- Reading `commands[i]` for an `int` index: `none` when `i` is outside the
array. -/
def commandAt (i : Int) : Option Command :=
  if 0 ≤ i then commands[i.toNat]? else none

/-! ## Finger state while the table is played in order -/

/-- The set of pressed fingers, as `(which_hand, finger)` pairs. -/
abbrev Pressed := List (Int × Int)

/-- Effect of one command on the set of pressed fingers: a press adds the
finger, an unpress removes it, a wait or a hand move leaves the set alone.
The header holds the table only, not the code that plays it; this is the
bookkeeping of finger state that the pairing and movement properties of the
table are stated against. -/
def step (s : Pressed) (c : Command) : Pressed :=
  match c.type with
  | CMD_PRESS_FINGER => (c.which_hand, c.param) :: s
  | CMD_UNPRESS_FINGER => s.filter (fun p => decide (p ≠ (c.which_hand, c.param)))
  | CMD_WAIT => s
  | CMD_MOVE_HAND => s

/-- Pressed fingers after playing the commands of `xs` in order, starting with
no finger pressed. -/
def run (xs : List Command) : Pressed := xs.foldl step []

/-- Pressed fingers just before command number `i` of the table is played. -/
def pressedBefore (i : Nat) : Pressed := run (commands.take i)

/-! ## Size of the table -/

theorem toInt32_of_lt (n : Nat) (h : n < 2 ^ 31) : toInt32 n = n := by
  unfold toInt32
  have h2 : (n + 2 ^ 31) % 2 ^ 32 = n + 2 ^ 31 := Nat.mod_eq_of_lt (by omega)
  rw [h2]
  push_cast
  ring

theorem countOf_eq_length (sz : Nat) (xs : List Command) (hsz : 0 < sz)
    (hlen : xs.length < 2 ^ 31) : countOf sz xs = xs.length := by
  unfold countOf sizeofArray
  rw [Nat.mul_div_cancel _ hsz]
  exact toInt32_of_lt _ hlen

theorem length_commands : commands.length = 34 := rfl

theorem numCommands_val : numCommands = 34 := by
  unfold numCommands
  rw [countOf_eq_length _ _ (by decide) (by rw [length_commands]; norm_num), length_commands]
  rfl

/-- C1: `numCommands` equals the number of entries of `commands`; more
generally, whatever the positive size of a record and whatever the table (of a
length that fits an `int`), `sizeof(table) / sizeof(table[0])` is the number
of entries of the table. -/
theorem numCommands_eq_length :
    numCommands = (commands.length : Int) ∧
    ∀ (sz : Nat) (xs : List Command), 0 < sz → xs.length < 2 ^ 31 →
      countOf sz xs = (xs.length : Int) := by
  refine ⟨?_, fun sz xs hsz hlen => countOf_eq_length sz xs hsz hlen⟩
  rw [numCommands_val, length_commands]
  rfl

/-- Instance of C1 at the record size 12 and the embedded table. -/
theorem numCommands_eq_length_witness :
    0 < 12 ∧ commands.length < 2 ^ 31 ∧ countOf 12 commands = (commands.length : Int) :=
  ⟨by decide, by rw [length_commands]; norm_num,
    numCommands_eq_length.2 12 commands (by decide) (by rw [length_commands]; norm_num)⟩

/-- C2, as stated, fails: the count is not 33. -/
theorem numCommands_ne_33 : ¬ (numCommands = 33 ∧ commands.length = 33) := by
  rintro ⟨_, h⟩
  rw [length_commands] at h
  exact absurd h (by decide)

/-- C2, amended: the table has exactly 34 entries and `numCommands = 34`. -/
theorem numCommands_eq_34 : numCommands = 34 ∧ commands.length = 34 :=
  ⟨numCommands_val, length_commands⟩

/-! ## First and last entries -/

/-- C3: the first three entries are `MoveHand` of hand 1 to key 1, `PressFinger`
of hand 1 finger 1, and a `Wait` of duration 200 (whatever its hand field). -/
theorem commands_first_three :
    commands[0]? = some ⟨CMD_MOVE_HAND, 1, 1⟩ ∧
    commands[1]? = some ⟨CMD_PRESS_FINGER, 1, 1⟩ ∧
    ∃ c, commands[2]? = some c ∧ c.type = CMD_WAIT ∧ c.param = 200 :=
  ⟨rfl, rfl, ⟨CMD_WAIT, -1, 200⟩, rfl, rfl, rfl⟩

/-- C4: the last entry, `commands[numCommands - 1]`, is `UnpressFinger` of
hand 0 finger 2. -/
theorem commands_last :
    commandAt (numCommands - 1) = some ⟨CMD_UNPRESS_FINGER, 0, 2⟩ ∧
    commands.getLast? = some ⟨CMD_UNPRESS_FINGER, 0, 2⟩ := by
  rw [numCommands_val]
  exact ⟨rfl, rfl⟩

/-! ## Field ranges -/

/-- C5: every `Wait` entry has a non-negative duration, which is 200 or 400. -/
theorem wait_param_range :
    ∀ c ∈ commands, c.type = CMD_WAIT → 0 ≤ c.param ∧ (c.param = 200 ∨ c.param = 400) := by
  decide

/-- Instance of C5 at the third entry of the table. -/
theorem wait_param_range_witness :
    (⟨CMD_WAIT, -1, 200⟩ : Command) ∈ commands ∧
    (0 : Int) ≤ 200 ∧ ((200 : Int) = 200 ∨ (200 : Int) = 400) :=
  ⟨by decide, wait_param_range ⟨CMD_WAIT, -1, 200⟩ (by decide) rfl⟩

/-- C6: every `MoveHand`, `PressFinger` or `UnpressFinger` entry selects hand 0
(left) or hand 1 (right). -/
theorem hand_selector_valid :
    ∀ c ∈ commands,
      (c.type = CMD_MOVE_HAND ∨ c.type = CMD_PRESS_FINGER ∨ c.type = CMD_UNPRESS_FINGER) →
      c.which_hand = 0 ∨ c.which_hand = 1 := by
  decide

/-- Instance of C6 at the first entry of the table. -/
theorem hand_selector_valid_witness :
    (⟨CMD_MOVE_HAND, 1, 1⟩ : Command) ∈ commands ∧ ((1 : Int) = 0 ∨ (1 : Int) = 1) :=
  ⟨by decide, hand_selector_valid ⟨CMD_MOVE_HAND, 1, 1⟩ (by decide) (Or.inl rfl)⟩

/-- C10: every `PressFinger` or `UnpressFinger` entry has a finger number in
1..5, and every `MoveHand` entry has a strictly positive key number. -/
theorem finger_and_key_range :
    ∀ c ∈ commands,
      ((c.type = CMD_PRESS_FINGER ∨ c.type = CMD_UNPRESS_FINGER) → 1 ≤ c.param ∧ c.param ≤ 5) ∧
      (c.type = CMD_MOVE_HAND → 0 < c.param) := by
  decide

/-- Instance of C10 at the entry pressing finger 5 of hand 0. -/
theorem finger_and_key_range_witness :
    (⟨CMD_PRESS_FINGER, 0, 5⟩ : Command) ∈ commands ∧ (1 : Int) ≤ 5 ∧ (5 : Int) ≤ 5 :=
  ⟨by decide,
    (finger_and_key_range ⟨CMD_PRESS_FINGER, 0, 5⟩ (by decide)).1 (Or.inl rfl)⟩

/-! ## Bounds -/

theorem commandAt_isSome (i : Int) (h0 : 0 ≤ i) (h1 : i < numCommands) :
    (commandAt i).isSome = true := by
  rw [numCommands_val] at h1
  have hlt : i.toNat < commands.length := by
    rw [length_commands]; omega
  unfold commandAt
  rw [if_pos h0, List.getElem?_eq_getElem hlt]
  rfl

/-- C7: the table is non-empty, so its first and last entries can be read, and
reading `commands[i]` succeeds for every `i` with `0 ≤ i < numCommands`. -/
theorem commands_nonempty_in_bounds :
    0 < numCommands ∧ commands ≠ [] ∧
    (commandAt 0).isSome = true ∧ (commandAt (numCommands - 1)).isSome = true ∧
    ∀ i : Int, 0 ≤ i → i < numCommands → (commandAt i).isSome = true := by
  refine ⟨?_, by decide, ?_, ?_, commandAt_isSome⟩
  · rw [numCommands_val]; decide
  · rfl
  · rw [numCommands_val]; rfl

/-- Instance of C7 at index 17. -/
theorem commands_nonempty_in_bounds_witness :
    (0 : Int) ≤ 17 ∧ (17 : Int) < numCommands ∧ (commandAt 17).isSome = true :=
  ⟨by decide, by rw [numCommands_val]; decide,
    commands_nonempty_in_bounds.2.2.2.2 17 (by decide) (by rw [numCommands_val]; decide)⟩

/-! ## Press / unpress pairing and hand movement -/

/-- C8: playing the table in order from the state with no finger pressed,
every `PressFinger` targets a finger that is not pressed at that point, every
`UnpressFinger` targets a finger that is pressed at that point, and after the
last command no finger is pressed. -/
theorem press_unpress_paired :
    (∀ i : Fin commands.length,
      ((commands.get i).type = CMD_PRESS_FINGER →
        ((commands.get i).which_hand, (commands.get i).param) ∉ pressedBefore i) ∧
      ((commands.get i).type = CMD_UNPRESS_FINGER →
        ((commands.get i).which_hand, (commands.get i).param) ∈ pressedBefore i)) ∧
    run commands = [] := by
  decide

/-- Instance of C8 at the second entry (press of finger 1 of hand 1) and at the
fourth entry (its unpress). -/
theorem press_unpress_paired_witness :
    (commands.get ⟨1, by decide⟩).type = CMD_PRESS_FINGER ∧
    ((1 : Int), (1 : Int)) ∉ pressedBefore 1 ∧
    (commands.get ⟨3, by decide⟩).type = CMD_UNPRESS_FINGER ∧
    ((1 : Int), (1 : Int)) ∈ pressedBefore 3 :=
  ⟨rfl, (press_unpress_paired.1 ⟨1, by decide⟩).1 rfl,
    rfl, (press_unpress_paired.1 ⟨3, by decide⟩).2 rfl⟩

/-- C9: playing the table in order, every `MoveHand` happens while no finger of
the moved hand is pressed, and every `PressFinger` comes after some `MoveHand`
of the same hand. -/
theorem move_hand_safe :
    ∀ i : Fin commands.length,
      ((commands.get i).type = CMD_MOVE_HAND →
        ∀ p ∈ pressedBefore i, p.1 ≠ (commands.get i).which_hand) ∧
      ((commands.get i).type = CMD_PRESS_FINGER →
        ∃ j : Fin commands.length, j < i ∧
          (commands.get j).type = CMD_MOVE_HAND ∧
          (commands.get j).which_hand = (commands.get i).which_hand) := by
  decide

/-- Instance of C9 at entry 6, the move of hand 0 made while finger 2 of hand 1
is pressed. -/
theorem move_hand_safe_witness :
    (commands.get ⟨6, by decide⟩).type = CMD_MOVE_HAND ∧
    ((1 : Int), (2 : Int)) ∈ pressedBefore 6 ∧
    (1 : Int) ≠ (commands.get ⟨6, by decide⟩).which_hand :=
  ⟨rfl, by decide, (move_hand_safe ⟨6, by decide⟩).1 rfl ((1 : Int), (2 : Int)) (by decide)⟩

end PianoMidi
